import Mathlib

/-!
Shallow embedding of the `openttd_social_integration_api` crate (an unofficial
Rust binding for the OpenTTD Social Integration plugin API) together with the
proof development checking its specification.

Modelling conventions:
* bytes crossing the C ABI are `Nat` values below 256; the memory behind a
  `*const c_char` is a `List Nat` (the readable bytes starting at the pointer);
* Rust `Option` is Lean `Option`; Rust `Result<T, ()>` is `Except Unit T`;
* a Rust panic (here only `Option::unwrap` on `None`) is the `Except.error`
  branch of an explicit `Except RustPanic` result;
* callbacks are pure Lean functions into an abstract observation type, so a
  theorem can state that a trampoline applies exactly the stored callback to
  exactly the arguments it received;
* the process-wide `static mut PLUGIN_API` singleton is threaded explicitly as
  a state value of type `PluginApi`.
-/

/-! ### UTF-8 machinery (model of `CStr::to_string_lossy`)

`src/src/lib.rs` decodes the host-supplied version string with
`CStr::from_ptr(p).to_string_lossy()`.  `to_string_lossy` performs lossy UTF-8
decoding: maximal valid sequences decode to their scalar values, each maximal
invalid subpart is replaced by U+FFFD, and the function never fails.  The
decoder below follows the byte-range table of Rust's UTF-8 validator
(`core::str::validations::run_utf8_validation`): 2-byte leads are
`0xC2..=0xDF`, 3-byte leads `0xE0..=0xEF` with a restricted first continuation
for `0xE0`/`0xED`, 4-byte leads `0xF0..=0xF4` with a restricted first
continuation for `0xF0`/`0xF4`, continuations are `0x80..=0xBF`.
-/

/-- Rust `char::REPLACEMENT_CHARACTER` (U+FFFD), substituted by
`String::from_utf8_lossy` / `CStr::to_string_lossy` for invalid sequences. -/
def replChar : Char := Char.ofNat 0xFFFD

/-- Lower bound of the first continuation byte after a 3-byte lead:
lead `0xE0` requires `0xA0..`, all other 3-byte leads allow `0x80..`. -/
def cont3Lo (b1 : Nat) : Nat := if b1 = 0xE0 then 0xA0 else 0x80

/-- Upper bound of the first continuation byte after a 3-byte lead:
lead `0xED` allows `..0x9F` (excluding surrogates), others `..0xBF`. -/
def cont3Hi (b1 : Nat) : Nat := if b1 = 0xED then 0x9F else 0xBF

/-- Lower bound of the first continuation byte after a 4-byte lead:
lead `0xF0` requires `0x90..` (excluding overlong forms). -/
def cont4Lo (b1 : Nat) : Nat := if b1 = 0xF0 then 0x90 else 0x80

/-- Upper bound of the first continuation byte after a 4-byte lead:
lead `0xF4` allows `..0x8F` (capping scalar values at `0x10FFFF`). -/
def cont4Hi (b1 : Nat) : Nat := if b1 = 0xF4 then 0x8F else 0xBF

/-- Lossy UTF-8 decoding, modelling Rust's `String::from_utf8_lossy`: valid
sequences decode to their scalar value, every maximal invalid subpart becomes
`replChar`, and the function is total. -/
def utf8DecodeLossy : List Nat → List Char
  | [] => []
  | b1 :: rest =>
    if b1 < 0x80 then
      Char.ofNat b1 :: utf8DecodeLossy rest
    else if 0xC2 ≤ b1 ∧ b1 ≤ 0xDF then
      match rest with
      | [] => [replChar]
      | b2 :: rest2 =>
        if 0x80 ≤ b2 ∧ b2 ≤ 0xBF then
          Char.ofNat ((b1 - 0xC0) * 0x40 + (b2 - 0x80)) :: utf8DecodeLossy rest2
        else
          replChar :: utf8DecodeLossy (b2 :: rest2)
    else if 0xE0 ≤ b1 ∧ b1 ≤ 0xEF then
      match rest with
      | [] => [replChar]
      | b2 :: rest2 =>
        if cont3Lo b1 ≤ b2 ∧ b2 ≤ cont3Hi b1 then
          match rest2 with
          | [] => [replChar]
          | b3 :: rest3 =>
            if 0x80 ≤ b3 ∧ b3 ≤ 0xBF then
              Char.ofNat ((b1 - 0xE0) * 0x1000 + (b2 - 0x80) * 0x40 + (b3 - 0x80)) ::
                utf8DecodeLossy rest3
            else
              replChar :: utf8DecodeLossy (b3 :: rest3)
        else
          replChar :: utf8DecodeLossy (b2 :: rest2)
    else if 0xF0 ≤ b1 ∧ b1 ≤ 0xF4 then
      match rest with
      | [] => [replChar]
      | b2 :: rest2 =>
        if cont4Lo b1 ≤ b2 ∧ b2 ≤ cont4Hi b1 then
          match rest2 with
          | [] => [replChar]
          | b3 :: rest3 =>
            if 0x80 ≤ b3 ∧ b3 ≤ 0xBF then
              match rest3 with
              | [] => [replChar]
              | b4 :: rest4 =>
                if 0x80 ≤ b4 ∧ b4 ≤ 0xBF then
                  Char.ofNat ((b1 - 0xF0) * 0x40000 + (b2 - 0x80) * 0x1000 +
                      (b3 - 0x80) * 0x40 + (b4 - 0x80)) :: utf8DecodeLossy rest4
                else
                  replChar :: utf8DecodeLossy (b4 :: rest4)
            else
              replChar :: utf8DecodeLossy (b3 :: rest3)
        else
          replChar :: utf8DecodeLossy (b2 :: rest2)
    else
      replChar :: utf8DecodeLossy rest

/-- UTF-8 validity of a byte sequence, by the same byte-range table as the
decoder (equivalently, Rust's `core::str::validations`). -/
def validUTF8 : List Nat → Bool
  | [] => true
  | b1 :: rest =>
    if b1 < 0x80 then validUTF8 rest
    else if 0xC2 ≤ b1 ∧ b1 ≤ 0xDF then
      match rest with
      | [] => false
      | b2 :: rest2 => if 0x80 ≤ b2 ∧ b2 ≤ 0xBF then validUTF8 rest2 else false
    else if 0xE0 ≤ b1 ∧ b1 ≤ 0xEF then
      match rest with
      | [] => false
      | b2 :: rest2 =>
        if cont3Lo b1 ≤ b2 ∧ b2 ≤ cont3Hi b1 then
          match rest2 with
          | [] => false
          | b3 :: rest3 => if 0x80 ≤ b3 ∧ b3 ≤ 0xBF then validUTF8 rest3 else false
        else false
    else if 0xF0 ≤ b1 ∧ b1 ≤ 0xF4 then
      match rest with
      | [] => false
      | b2 :: rest2 =>
        if cont4Lo b1 ≤ b2 ∧ b2 ≤ cont4Hi b1 then
          match rest2 with
          | [] => false
          | b3 :: rest3 =>
            if 0x80 ≤ b3 ∧ b3 ≤ 0xBF then
              match rest3 with
              | [] => false
              | b4 :: rest4 => if 0x80 ≤ b4 ∧ b4 ≤ 0xBF then validUTF8 rest4 else false
            else false
        else false
    else false

/-- Reference UTF-8 encoding of a Unicode scalar value (standard formulas). -/
def utf8EncodeCharNat (n : Nat) : List Nat :=
  if n < 0x80 then [n]
  else if n < 0x800 then [0xC0 + n / 0x40, 0x80 + n % 0x40]
  else if n < 0x10000 then
    [0xE0 + n / 0x1000, 0x80 + n / 0x40 % 0x40, 0x80 + n % 0x40]
  else
    [0xF0 + n / 0x40000, 0x80 + n / 0x1000 % 0x40, 0x80 + n / 0x40 % 0x40, 0x80 + n % 0x40]

/-- UTF-8 bytes of a string (no terminator), modelling the bytes `str::as_ptr`
exposes. -/
def encodeStr (s : String) : List Nat := s.data.flatMap (fun c => utf8EncodeCharNat c.toNat)

/-! ### ABI struct layer and safe wrapper layer (src/src/lib.rs)

`raw_api` is the bindgen-generated mirror of the host's C header.  A C string
pointer is modelled as the list of bytes readable behind it; a nullable C
function pointer as an `Option` holding the pointed-to function. -/

/-- Model of the bindgen record `OpenTTD_SocialIntegration_v1_OpenTTDInfo`
(field `openttd_version : *const c_char`): the bytes readable at the host
pointer, including the NUL terminator. -/
structure OpenTTD_SocialIntegration_v1_OpenTTDInfo where
  openttd_version : List Nat

/-- Model of `CStr::from_ptr`: the content of a C string is the byte sequence
before the first NUL. -/
def cstr_from_ptr (mem : List Nat) : List Nat := mem.takeWhile (fun b => b != 0)

/-- `OpenTTDInfo` (src/src/lib.rs lines 63-66): owned, decoded host info. -/
structure OpenTTDInfo where
  openttd_version : String

/-- Model of `impl From<OpenTTD_SocialIntegration_v1_OpenTTDInfo> for
OpenTTDInfo` (src/src/lib.rs lines 68-72):
`CStr::from_ptr(value.openttd_version).to_string_lossy().into_owned()`. -/
def OpenTTDInfo.fromRaw (value : OpenTTD_SocialIntegration_v1_OpenTTDInfo) : OpenTTDInfo :=
  { openttd_version := String.mk (utf8DecodeLossy (cstr_from_ptr value.openttd_version)) }

/-- `PluginApi` (src/src/lib.rs lines 78-113): the option-typed callback table
supplied by the plugin author.  Callbacks are modelled as pure functions into
an abstract observation type `α` (`Bool` for `run_callbacks`, whose Rust type
is `fn() -> bool`), so a theorem can state which stored function a trampoline
applies and to which arguments. -/
structure PluginApi (α : Type) where
  shutdown : Option (Unit → α)
  run_callbacks : Option (Unit → Bool)
  event_enter_main_menu : Option (Unit → α)
  event_enter_scenario_editor : Option (Nat → Nat → α)
  event_enter_singleplayer : Option (Nat → Nat → α)
  event_enter_multiplayer : Option (Nat → Nat → α)
  event_joining_multiplayer : Option (Unit → α)

/-- The initial value of the `static mut PLUGIN_API` singleton
(src/src/lib.rs lines 115-123): every slot is `None`. -/
def PLUGIN_API (α : Type) : PluginApi α :=
  { shutdown := none
    run_callbacks := none
    event_enter_main_menu := none
    event_enter_scenario_editor := none
    event_enter_singleplayer := none
    event_enter_multiplayer := none
    event_joining_multiplayer := none }

/-- A Rust panic.  The only panic site in this layer is `Option::unwrap`
called on `None`. -/
inductive RustPanic where
  | unwrapNone
deriving DecidableEq

/-- Trampoline `unsafe extern "C" fn shutdown()` (src/src/lib.rs lines
125-127): `PLUGIN_API.shutdown.unwrap()()`.  The current contents of the
`PLUGIN_API` singleton are passed explicitly as `st`; `unwrap` on `None`
panics. -/
def shutdown (st : PluginApi α) : Except RustPanic α :=
  match st.shutdown with
  | some f => .ok (f ())
  | none => .error .unwrapNone

/-- Trampoline `unsafe extern "C" fn run_callbacks() -> bool` (src/src/lib.rs
lines 129-131): `PLUGIN_API.run_callbacks.unwrap()()`. -/
def run_callbacks (st : PluginApi α) : Except RustPanic Bool :=
  match st.run_callbacks with
  | some f => .ok (f ())
  | none => .error .unwrapNone

/-- Trampoline `unsafe extern "C" fn event_enter_main_menu()`
(src/src/lib.rs lines 133-135). -/
def event_enter_main_menu (st : PluginApi α) : Except RustPanic α :=
  match st.event_enter_main_menu with
  | some f => .ok (f ())
  | none => .error .unwrapNone

/-- Trampoline `unsafe extern "C" fn event_enter_scenario_editor(map_width,
map_height)` (src/src/lib.rs lines 137-139). -/
def event_enter_scenario_editor (st : PluginApi α) (map_width map_height : Nat) :
    Except RustPanic α :=
  match st.event_enter_scenario_editor with
  | some f => .ok (f map_width map_height)
  | none => .error .unwrapNone

/-- Trampoline `unsafe extern "C" fn event_enter_singleplayer(map_width,
map_height)` (src/src/lib.rs lines 141-143). -/
def event_enter_singleplayer (st : PluginApi α) (map_width map_height : Nat) :
    Except RustPanic α :=
  match st.event_enter_singleplayer with
  | some f => .ok (f map_width map_height)
  | none => .error .unwrapNone

/-- Trampoline `unsafe extern "C" fn event_enter_multiplayer(map_width,
map_height)` (src/src/lib.rs lines 145-147). -/
def event_enter_multiplayer (st : PluginApi α) (map_width map_height : Nat) :
    Except RustPanic α :=
  match st.event_enter_multiplayer with
  | some f => .ok (f map_width map_height)
  | none => .error .unwrapNone

/-- Trampoline `unsafe extern "C" fn event_joining_multiplayer()`
(src/src/lib.rs lines 149-151). -/
def event_joining_multiplayer (st : PluginApi α) : Except RustPanic α :=
  match st.event_joining_multiplayer with
  | some f => .ok (f ())
  | none => .error .unwrapNone

/-- The bindgen constants `OpenTTD_SocialIntegration_v1_InitResult_*`
(SUCCESS, PLATFORM_NOT_RUNNING, FAILED) as an enumeration of the three
distinct outcome codes. -/
inductive OpenTTD_SocialIntegration_v1_InitResult where
  | INIT_SUCCESS
  | INIT_PLATFORM_NOT_RUNNING
  | INIT_FAILED
deriving DecidableEq

/-- Model of the ABI callback table `OpenTTD_SocialIntegration_v1_PluginApi`:
one nullable C function pointer per capability slot.  A non-null slot holds
the function the pointer points to; the trampolines read the singleton state
at invocation time, hence their `PluginApi α →` argument. -/
structure OpenTTD_SocialIntegration_v1_PluginApi (α : Type) where
  shutdown : Option (PluginApi α → Except RustPanic α)
  run_callbacks : Option (PluginApi α → Except RustPanic Bool)
  event_enter_main_menu : Option (PluginApi α → Except RustPanic α)
  event_enter_scenario_editor : Option (PluginApi α → Nat → Nat → Except RustPanic α)
  event_enter_singleplayer : Option (PluginApi α → Nat → Nat → Except RustPanic α)
  event_enter_multiplayer : Option (PluginApi α → Nat → Nat → Except RustPanic α)
  event_joining_multiplayer : Option (PluginApi α → Except RustPanic α)

/-- `call_init` (src/src/lib.rs lines 163-182).  Converts the host info via
`From`, invokes the user init function; on `Ok(Some(api))` it assigns the
singleton (`PLUGIN_API = api`) and builds the ABI table, where
`wrapper_some!(x)` arms slot `x` with the trampoline `x` exactly when
`PLUGIN_API.x` (that is, the just-assigned `api.x`) is `Some`; on `Ok(None)`
and `Err(())` it leaves the singleton alone and returns `None` with the
corresponding code.  The result is the singleton state after the call,
together with the pair the Rust function returns. -/
def call_init (init : OpenTTDInfo → Except Unit (Option (PluginApi α)))
    (info : OpenTTD_SocialIntegration_v1_OpenTTDInfo) (st : PluginApi α) :
    PluginApi α × Option (OpenTTD_SocialIntegration_v1_PluginApi α) ×
      OpenTTD_SocialIntegration_v1_InitResult :=
  match init (OpenTTDInfo.fromRaw info) with
  | .ok (some api) =>
      (api,
       some {
         shutdown := (match api.shutdown with
           | some _ => some shutdown
           | none => none)
         run_callbacks := (match api.run_callbacks with
           | some _ => some run_callbacks
           | none => none)
         event_enter_main_menu := (match api.event_enter_main_menu with
           | some _ => some event_enter_main_menu
           | none => none)
         event_enter_scenario_editor := (match api.event_enter_scenario_editor with
           | some _ => some event_enter_scenario_editor
           | none => none)
         event_enter_singleplayer := (match api.event_enter_singleplayer with
           | some _ => some event_enter_singleplayer
           | none => none)
         event_enter_multiplayer := (match api.event_enter_multiplayer with
           | some _ => some event_enter_multiplayer
           | none => none)
         event_joining_multiplayer := (match api.event_joining_multiplayer with
           | some _ => some event_joining_multiplayer
           | none => none) },
       .INIT_SUCCESS)
  | .ok none => (st, none, .INIT_PLATFORM_NOT_RUNNING)
  | .error _ => (st, none, .INIT_FAILED)

/-- Folding a sequence of successful `call_init` invocations over the
singleton state: each step runs `call_init` with a user init function that
returns `Ok(Some(t))` for the next table `t`. -/
def runInits (info : OpenTTD_SocialIntegration_v1_OpenTTDInfo)
    (st0 : PluginApi α) (tables : List (PluginApi α)) : PluginApi α :=
  tables.foldl (fun st t => (call_init (fun _ => .ok (some t)) info st).1) st0

/-! ### Codegen layer (src/openttd_social_integration_api_macros/src/lib.rs) -/

/-- Escaping used when a string literal token is printed back to source form
(backslashes and double quotes are escaped). -/
def rustEscape (s : String) : String :=
  String.mk (s.data.flatMap fun c =>
    if c = '\\' then ['\\', '\\']
    else if c = '"' then ['\\', '"']
    else [c])

/-- `stringify!` applied to an interpolated string literal `#lit`: the token's
source form, that is the literal value surrounded by double quotes (with
escapes). -/
def stringifyLit (s : String) : String := "\"" ++ rustEscape s ++ "\""

/-- Model of the bindgen record `OpenTTD_SocialIntegration_v1_PluginInfo`:
three C string pointers.  Each field holds the exact static bytes readable
behind the stored pointer; `str::as_ptr` exposes exactly the bytes of the
`str` value, nothing after them. -/
structure OpenTTD_SocialIntegration_v1_PluginInfo where
  social_platform : List Nat
  name : List Nat
  version : List Nat
deriving DecidableEq

/-- The generated `SocialIntegration_v1_GetInfo`
(src/openttd_social_integration_api_macros/src/lib.rs lines 92-99): writes
`stringify!(#platform).as_ptr().cast()` (and likewise for name and version)
into the host-provided record. -/
def SocialIntegration_v1_GetInfo (platform plugin_name version : String) :
    OpenTTD_SocialIntegration_v1_PluginInfo :=
  { social_platform := encodeStr (stringifyLit platform)
    name := encodeStr (stringifyLit plugin_name)
    version := encodeStr (stringifyLit version) }

/-- The generated `SocialIntegration_v1_Init`
(src/openttd_social_integration_api_macros/src/lib.rs lines 101-112): calls
`call_init`, writes the returned ABI table through the `plugin_api` out
pointer only in the `Some` case, and returns the code.  `plugin_api_mem` is
the content of the host's table memory before the call; the first component
of the result is that memory after the call. -/
def SocialIntegration_v1_Init (init : OpenTTDInfo → Except Unit (Option (PluginApi α)))
    (plugin_api_mem : OpenTTD_SocialIntegration_v1_PluginApi α)
    (openttd_info : OpenTTD_SocialIntegration_v1_OpenTTDInfo) (st : PluginApi α) :
    OpenTTD_SocialIntegration_v1_PluginApi α × PluginApi α ×
      OpenTTD_SocialIntegration_v1_InitResult :=
  let ret := call_init init openttd_info st
  ((match ret.2.1 with
    | some api => api
    | none => plugin_api_mem),
   ret.1, ret.2.2)

/-- The attribute arguments of the `init` proc macro
(src/openttd_social_integration_api_macros/src/lib.rs lines 5-10). -/
structure Attributes where
  social_platform : Option String
  name : Option String
  version : Option String

/-- The outcome of running the `init` attribute macro: generated symbols, a
compile-time diagnostic, or a macro panic. -/
inductive MacroResult where
  | ok (getInfoRecord : OpenTTD_SocialIntegration_v1_PluginInfo)
  | compileError (message : String)
  | panic (p : RustPanic)
deriving DecidableEq

/-- `impl_init` (src/openttd_social_integration_api_macros/src/lib.rs lines
86-116): unwraps the three attributes and emits the two exported symbols; the
generated `GetInfo` is captured by its constant record (`Init` wires the user
function through `call_init` as modelled by `SocialIntegration_v1_Init`). -/
def impl_init (attrs : Attributes) : MacroResult :=
  match attrs.social_platform, attrs.name, attrs.version with
  | some p, some n, some v => .ok (SocialIntegration_v1_GetInfo p n v)
  | _, _, _ => .panic .unwrapNone

namespace Macros

/-- The `init` attribute proc macro entry
(src/openttd_social_integration_api_macros/src/lib.rs lines 66-84): if any of
name, platform, version is missing it returns the compile error tokens, else
it expands via `impl_init`. -/
def init (attrs : Attributes) : MacroResult :=
  if attrs.name.isNone || attrs.social_platform.isNone || attrs.version.isNone then
    .compileError "No platform, name or version args!"
  else
    impl_init attrs

end Macros

/-! ### Concrete inputs used by witnesses -/

/-- A host info record carrying the single byte NUL (empty version string). -/
def infoEmpty : OpenTTD_SocialIntegration_v1_OpenTTDInfo := { openttd_version := [0] }

/-- An all-null ABI table memory content. -/
def rawEmpty (α : Type) : OpenTTD_SocialIntegration_v1_PluginApi α :=
  { shutdown := none
    run_callbacks := none
    event_enter_main_menu := none
    event_enter_scenario_editor := none
    event_enter_singleplayer := none
    event_enter_multiplayer := none
    event_joining_multiplayer := none }

/-- A sample callback table arming only `shutdown`, `run_callbacks` and
`event_enter_singleplayer`. -/
def apiSample : PluginApi Nat :=
  { shutdown := some (fun _ => 3)
    run_callbacks := some (fun _ => true)
    event_enter_main_menu := none
    event_enter_scenario_editor := none
    event_enter_singleplayer := some (fun w h => w + h)
    event_enter_multiplayer := none
    event_joining_multiplayer := some (fun _ => 7) }

/-- Discriminator for the `Except` model of fallible Rust computations:
`true` on a normal return, `false` on a panic. -/
def exceptIsOk {ε β : Type} : Except ε β → Bool
  | .ok _ => true
  | .error _ => false

/-- A second sample callback table, with different callbacks than
`apiSample`. -/
def apiSample2 : PluginApi Nat :=
  { shutdown := some (fun _ => 10)
    run_callbacks := some (fun _ => false)
    event_enter_main_menu := none
    event_enter_scenario_editor := none
    event_enter_singleplayer := some (fun w h => w * h)
    event_enter_multiplayer := none
    event_joining_multiplayer := none }

/-- Unfolding equation of the decoder: ASCII byte. -/
theorem decode_cons_ascii (b1 : Nat) (bs : List Nat) (h : b1 < 0x80) :
    utf8DecodeLossy (b1 :: bs) = Char.ofNat b1 :: utf8DecodeLossy bs := by
  rcases bs with _ | ⟨b2, _ | ⟨b3, _ | ⟨b4, bs4⟩⟩⟩ <;>
    (simp only [utf8DecodeLossy]; rw [if_pos h])

/-- Unfolding equation of the decoder: well-formed 2-byte sequence. -/
theorem decode_cons_two (b1 b2 : Nat) (bs : List Nat)
    (ha : 0xC2 ≤ b1) (hb : b1 ≤ 0xDF) (hc : 0x80 ≤ b2) (hd : b2 ≤ 0xBF) :
    utf8DecodeLossy (b1 :: b2 :: bs) =
      Char.ofNat ((b1 - 0xC0) * 0x40 + (b2 - 0x80)) :: utf8DecodeLossy bs := by
  rcases bs with _ | ⟨b3, _ | ⟨b4, bs4⟩⟩ <;>
    (simp only [utf8DecodeLossy]
     rw [if_neg (by omega), if_pos ⟨ha, hb⟩, if_pos ⟨hc, hd⟩])

/-- Unfolding equation of the decoder: well-formed 3-byte sequence. -/
theorem decode_cons_three (b1 b2 b3 : Nat) (bs : List Nat)
    (ha : 0xE0 ≤ b1) (hb : b1 ≤ 0xEF) (hc : cont3Lo b1 ≤ b2) (hd : b2 ≤ cont3Hi b1)
    (he : 0x80 ≤ b3) (hf : b3 ≤ 0xBF) :
    utf8DecodeLossy (b1 :: b2 :: b3 :: bs) =
      Char.ofNat ((b1 - 0xE0) * 0x1000 + (b2 - 0x80) * 0x40 + (b3 - 0x80)) ::
        utf8DecodeLossy bs := by
  rcases bs with _ | ⟨b4, bs4⟩ <;>
    (simp only [utf8DecodeLossy]
     rw [if_neg (by omega), if_neg (by omega), if_pos ⟨ha, hb⟩, if_pos ⟨hc, hd⟩,
       if_pos ⟨he, hf⟩])

/-- Unfolding equation of the decoder: well-formed 4-byte sequence. -/
theorem decode_cons_four (b1 b2 b3 b4 : Nat) (bs : List Nat)
    (ha : 0xF0 ≤ b1) (hb : b1 ≤ 0xF4) (hc : cont4Lo b1 ≤ b2) (hd : b2 ≤ cont4Hi b1)
    (he : 0x80 ≤ b3) (hf : b3 ≤ 0xBF) (hg : 0x80 ≤ b4) (hh : b4 ≤ 0xBF) :
    utf8DecodeLossy (b1 :: b2 :: b3 :: b4 :: bs) =
      Char.ofNat ((b1 - 0xF0) * 0x40000 + (b2 - 0x80) * 0x1000 +
          (b3 - 0x80) * 0x40 + (b4 - 0x80)) :: utf8DecodeLossy bs := by
  simp only [utf8DecodeLossy]
  rw [if_neg (by omega), if_neg (by omega), if_neg (by omega), if_pos ⟨ha, hb⟩,
    if_pos ⟨hc, hd⟩, if_pos ⟨he, hf⟩, if_pos ⟨hg, hh⟩]

/-- Decoding inverts encoding for a single valid (non-surrogate) scalar value. -/
theorem decode_encodeValid (n : Nat) (hv : n < 0xd800 ∨ (0xdfff < n ∧ n < 0x110000))
    (bs : List Nat) :
    utf8DecodeLossy (utf8EncodeCharNat n ++ bs) = Char.ofNat n :: utf8DecodeLossy bs := by
  by_cases h1 : n < 0x80
  · rw [utf8EncodeCharNat, if_pos h1]
    rw [List.cons_append, List.nil_append, decode_cons_ascii _ _ h1]
  · by_cases h2 : n < 0x800
    · rw [utf8EncodeCharNat, if_neg h1, if_pos h2]
      simp only [List.cons_append, List.nil_append]
      rw [decode_cons_two _ _ _ (by omega) (by omega) (by omega) (by omega)]
      have harith : (0xC0 + n / 0x40 - 0xC0) * 0x40 + (0x80 + n % 0x40 - 0x80) = n := by
        omega
      rw [harith]
    · by_cases h3 : n < 0x10000
      · rw [utf8EncodeCharNat, if_neg h1, if_neg h2, if_pos h3]
        simp only [List.cons_append, List.nil_append]
        rw [decode_cons_three _ _ _ _ (by omega) (by omega)
          (by unfold cont3Lo; split <;> omega) (by unfold cont3Hi; split <;> omega)
          (by omega) (by omega)]
        have harith : (0xE0 + n / 0x1000 - 0xE0) * 0x1000 +
            (0x80 + n / 0x40 % 0x40 - 0x80) * 0x40 + (0x80 + n % 0x40 - 0x80) = n := by
          omega
        rw [harith]
      · rw [utf8EncodeCharNat, if_neg h1, if_neg h2, if_neg h3]
        simp only [List.cons_append, List.nil_append]
        rw [decode_cons_four _ _ _ _ _ (by omega) (by omega)
          (by unfold cont4Lo; split <;> omega) (by unfold cont4Hi; split <;> omega)
          (by omega) (by omega) (by omega) (by omega)]
        have harith : (0xF0 + n / 0x40000 - 0xF0) * 0x40000 +
            (0x80 + n / 0x1000 % 0x40 - 0x80) * 0x1000 +
            (0x80 + n / 0x40 % 0x40 - 0x80) * 0x40 + (0x80 + n % 0x40 - 0x80) = n := by
          omega
        rw [harith]

/-- Decoding inverts encoding, one character at a time. -/
theorem decode_encodeChar (c : Char) (bs : List Nat) :
    utf8DecodeLossy (utf8EncodeCharNat c.toNat ++ bs) = c :: utf8DecodeLossy bs := by
  rw [decode_encodeValid c.toNat c.valid bs, Char.ofNat_toNat]

/-- One-step unfolding of the decoder on a cons cell, restating the nested
matches of the definition as step-by-step reducible matches. -/
theorem decode_cons_eq (b1 : Nat) (bs : List Nat) :
    utf8DecodeLossy (b1 :: bs) =
      if b1 < 0x80 then
        Char.ofNat b1 :: utf8DecodeLossy bs
      else if 0xC2 ≤ b1 ∧ b1 ≤ 0xDF then
        match bs with
        | [] => [replChar]
        | b2 :: rest2 =>
          if 0x80 ≤ b2 ∧ b2 ≤ 0xBF then
            Char.ofNat ((b1 - 0xC0) * 0x40 + (b2 - 0x80)) :: utf8DecodeLossy rest2
          else
            replChar :: utf8DecodeLossy (b2 :: rest2)
      else if 0xE0 ≤ b1 ∧ b1 ≤ 0xEF then
        match bs with
        | [] => [replChar]
        | b2 :: rest2 =>
          if cont3Lo b1 ≤ b2 ∧ b2 ≤ cont3Hi b1 then
            match rest2 with
            | [] => [replChar]
            | b3 :: rest3 =>
              if 0x80 ≤ b3 ∧ b3 ≤ 0xBF then
                Char.ofNat ((b1 - 0xE0) * 0x1000 + (b2 - 0x80) * 0x40 + (b3 - 0x80)) ::
                  utf8DecodeLossy rest3
              else
                replChar :: utf8DecodeLossy (b3 :: rest3)
          else
            replChar :: utf8DecodeLossy (b2 :: rest2)
      else if 0xF0 ≤ b1 ∧ b1 ≤ 0xF4 then
        match bs with
        | [] => [replChar]
        | b2 :: rest2 =>
          if cont4Lo b1 ≤ b2 ∧ b2 ≤ cont4Hi b1 then
            match rest2 with
            | [] => [replChar]
            | b3 :: rest3 =>
              if 0x80 ≤ b3 ∧ b3 ≤ 0xBF then
                match rest3 with
                | [] => [replChar]
                | b4 :: rest4 =>
                  if 0x80 ≤ b4 ∧ b4 ≤ 0xBF then
                    Char.ofNat ((b1 - 0xF0) * 0x40000 + (b2 - 0x80) * 0x1000 +
                        (b3 - 0x80) * 0x40 + (b4 - 0x80)) :: utf8DecodeLossy rest4
                  else
                    replChar :: utf8DecodeLossy (b4 :: rest4)
              else
                replChar :: utf8DecodeLossy (b3 :: rest3)
          else
            replChar :: utf8DecodeLossy (b2 :: rest2)
      else
        replChar :: utf8DecodeLossy bs := by
  rcases bs with _ | ⟨b2, _ | ⟨b3, _ | ⟨b4, bs4⟩⟩⟩ <;> rfl

/-- One-step unfolding of the validity check on a cons cell. -/
theorem valid_cons_eq (b1 : Nat) (bs : List Nat) :
    validUTF8 (b1 :: bs) =
      if b1 < 0x80 then validUTF8 bs
      else if 0xC2 ≤ b1 ∧ b1 ≤ 0xDF then
        match bs with
        | [] => false
        | b2 :: rest2 => if 0x80 ≤ b2 ∧ b2 ≤ 0xBF then validUTF8 rest2 else false
      else if 0xE0 ≤ b1 ∧ b1 ≤ 0xEF then
        match bs with
        | [] => false
        | b2 :: rest2 =>
          if cont3Lo b1 ≤ b2 ∧ b2 ≤ cont3Hi b1 then
            match rest2 with
            | [] => false
            | b3 :: rest3 => if 0x80 ≤ b3 ∧ b3 ≤ 0xBF then validUTF8 rest3 else false
          else false
      else if 0xF0 ≤ b1 ∧ b1 ≤ 0xF4 then
        match bs with
        | [] => false
        | b2 :: rest2 =>
          if cont4Lo b1 ≤ b2 ∧ b2 ≤ cont4Hi b1 then
            match rest2 with
            | [] => false
            | b3 :: rest3 =>
              if 0x80 ≤ b3 ∧ b3 ≤ 0xBF then
                match rest3 with
                | [] => false
                | b4 :: rest4 => if 0x80 ≤ b4 ∧ b4 ≤ 0xBF then validUTF8 rest4 else false
              else false
        else false
      else false := by
  rcases bs with _ | ⟨b2, _ | ⟨b3, _ | ⟨b4, bs4⟩⟩⟩ <;> rfl

/-- An invalid byte sequence always leaves at least one replacement character
in the lossy decoding (auxiliary, with an explicit length bound as fuel). -/
theorem repl_of_invalid_aux : ∀ (k : Nat) (bs : List Nat), bs.length ≤ k →
    validUTF8 bs = false → replChar ∈ utf8DecodeLossy bs := by
  intro k
  induction k with
  | zero =>
    intro bs hlen h
    rcases bs with _ | ⟨b1, bs1⟩
    · exact Bool.noConfusion ((validUTF8.eq_1).symm.trans h)
    · simp at hlen
  | succ k IH =>
    intro bs hlen h
    rcases bs with _ | ⟨b1, bs1⟩
    · exact Bool.noConfusion ((validUTF8.eq_1).symm.trans h)
    rw [valid_cons_eq] at h
    rw [decode_cons_eq]
    simp only [List.length_cons] at hlen
    by_cases h1 : b1 < 0x80
    · rw [if_pos h1] at h ⊢
      exact List.mem_cons_of_mem _ (IH _ (by omega) h)
    rw [if_neg h1] at h ⊢
    by_cases h2 : 0xC2 ≤ b1 ∧ b1 ≤ 0xDF
    · rw [if_pos h2] at h ⊢
      rcases bs1 with _ | ⟨b2, rest2⟩
      · exact List.mem_cons_self _ _
      simp only [] at h ⊢
      simp only [List.length_cons] at hlen
      by_cases hc : 0x80 ≤ b2 ∧ b2 ≤ 0xBF
      · rw [if_pos hc] at h ⊢
        exact List.mem_cons_of_mem _ (IH _ (by omega) h)
      · rw [if_neg hc] at h ⊢
        exact List.mem_cons_self _ _
    rw [if_neg h2] at h ⊢
    by_cases h3 : 0xE0 ≤ b1 ∧ b1 ≤ 0xEF
    · rw [if_pos h3] at h ⊢
      rcases bs1 with _ | ⟨b2, rest2⟩
      · exact List.mem_cons_self _ _
      simp only [] at h ⊢
      simp only [List.length_cons] at hlen
      by_cases hc : cont3Lo b1 ≤ b2 ∧ b2 ≤ cont3Hi b1
      · rw [if_pos hc] at h ⊢
        rcases rest2 with _ | ⟨b3, rest3⟩
        · exact List.mem_cons_self _ _
        simp only [] at h ⊢
        simp only [List.length_cons] at hlen
        by_cases hd : 0x80 ≤ b3 ∧ b3 ≤ 0xBF
        · rw [if_pos hd] at h ⊢
          exact List.mem_cons_of_mem _ (IH _ (by omega) h)
        · rw [if_neg hd] at h ⊢
          exact List.mem_cons_self _ _
      · rw [if_neg hc] at h ⊢
        exact List.mem_cons_self _ _
    rw [if_neg h3] at h ⊢
    by_cases h4 : 0xF0 ≤ b1 ∧ b1 ≤ 0xF4
    · rw [if_pos h4] at h ⊢
      rcases bs1 with _ | ⟨b2, rest2⟩
      · exact List.mem_cons_self _ _
      simp only [] at h ⊢
      simp only [List.length_cons] at hlen
      by_cases hc : cont4Lo b1 ≤ b2 ∧ b2 ≤ cont4Hi b1
      · rw [if_pos hc] at h ⊢
        rcases rest2 with _ | ⟨b3, rest3⟩
        · exact List.mem_cons_self _ _
        simp only [] at h ⊢
        simp only [List.length_cons] at hlen
        by_cases hd : 0x80 ≤ b3 ∧ b3 ≤ 0xBF
        · rw [if_pos hd] at h ⊢
          rcases rest3 with _ | ⟨b4, rest4⟩
          · exact List.mem_cons_self _ _
          simp only [] at h ⊢
          simp only [List.length_cons] at hlen
          by_cases he : 0x80 ≤ b4 ∧ b4 ≤ 0xBF
          · rw [if_pos he] at h ⊢
            exact List.mem_cons_of_mem _ (IH _ (by omega) h)
          · rw [if_neg he] at h ⊢
            exact List.mem_cons_self _ _
        · rw [if_neg hd] at h ⊢
          exact List.mem_cons_self _ _
      · rw [if_neg hc] at h ⊢
        exact List.mem_cons_self _ _
    rw [if_neg h4] at h ⊢
    exact List.mem_cons_self _ _

/-- An invalid byte sequence always leaves at least one replacement character
in the lossy decoding. -/
theorem repl_of_invalid (bs : List Nat) (h : validUTF8 bs = false) :
    replChar ∈ utf8DecodeLossy bs :=
  repl_of_invalid_aux bs.length bs (Nat.le_refl _) h

/-- Decoding inverts encoding on whole character lists. -/
theorem decode_encode_list (cs : List Char) :
    utf8DecodeLossy (cs.flatMap (fun c => utf8EncodeCharNat c.toNat)) = cs := by
  induction cs with
  | nil => rfl
  | cons c cs ih => rw [List.flatMap_cons, decode_encodeChar, ih]

/-- Decoding inverts encoding on strings. -/
theorem decode_encodeStr (s : String) : utf8DecodeLossy (encodeStr s) = s.data :=
  decode_encode_list s.data

example : utf8DecodeLossy (encodeStr "Ab") = ['A', 'b'] := by decide
example : utf8DecodeLossy [0xFF] = [replChar] := by decide
example : validUTF8 [0xC3, 0xA9] = true := by decide
example : utf8DecodeLossy [0xC3, 0xA9] = [Char.ofNat 0xE9] := by decide
example : validUTF8 [0xED, 0xA0, 0x80] = false := by decide
example : utf8DecodeLossy [0xE2, 0x82, 0xAC] = [Char.ofNat 0x20AC] := by decide
example : utf8DecodeLossy [0xF0, 0x9F, 0x98, 0x80] = [Char.ofNat 0x1F600] := by decide
example : encodeStr "é" = [0xC3, 0xA9] := by decide

/-- `takeWhile (b != 0)` recovers exactly the bytes before the NUL
terminator. -/
theorem takeWhile_ne_zero_append (l : List Nat) (h : 0 ∉ l) :
    (l ++ [0]).takeWhile (fun b => b != 0) = l := by
  induction l with
  | nil => rfl
  | cons a l ih =>
    simp only [List.mem_cons, not_or] at h
    rw [List.cons_append, List.takeWhile_cons, if_pos (by simpa using Ne.symm h.1), ih h.2]

/-- C8: decoding the host-supplied version string never fails: a
null-terminated byte sequence that is valid UTF-8 (the UTF-8 encoding of a
text `s`) converts to an `OpenTTDInfo` holding exactly `s` (round-trip), and
byte content that is not valid UTF-8 converts, without any failure being
propagated, to text in which invalid sequences were substituted (it contains
the replacement character). -/
theorem C8_host_string_decoding :
    (∀ s : String, 0 ∉ encodeStr s →
      OpenTTDInfo.fromRaw { openttd_version := encodeStr s ++ [0] } =
        { openttd_version := s }) ∧
    (∀ bs : List Nat, 0 ∉ bs → validUTF8 bs = false →
      replChar ∈
        (OpenTTDInfo.fromRaw { openttd_version := bs ++ [0] }).openttd_version.data) := by
  constructor
  · intro s h
    simp only [OpenTTDInfo.fromRaw, cstr_from_ptr, takeWhile_ne_zero_append _ h,
      decode_encodeStr]
  · intro bs h0 hv
    simp only [OpenTTDInfo.fromRaw, cstr_from_ptr, takeWhile_ne_zero_append _ h0]
    exact repl_of_invalid bs hv

/-- Witness for C8 at concrete inputs: the valid string "Ab" round-trips, and
the invalid byte 0xFF decodes to text containing the replacement character. -/
theorem C8_host_string_decoding_witness :
    OpenTTDInfo.fromRaw { openttd_version := encodeStr "Ab" ++ [0] } =
      { openttd_version := "Ab" } ∧
    replChar ∈
      (OpenTTDInfo.fromRaw { openttd_version := [0xFF] ++ [0] }).openttd_version.data :=
  ⟨C8_host_string_decoding.1 "Ab" (by decide),
   C8_host_string_decoding.2 [0xFF] (by decide) (by decide)⟩

/-- C1 (counterexample): with the singleton in its initial all-absent state,
invoking the `shutdown` trampoline does not produce an inert normal return as
the claim states — it panics (`Option::unwrap` on `None`) — so the claimed
conversion to a safe log-and-return behavior does not exist in the code. -/
theorem C1_absent_slot_counterexample :
    shutdown (PLUGIN_API Unit) = .error .unwrapNone ∧
      exceptIsOk (shutdown (PLUGIN_API Unit)) = false :=
  ⟨rfl, rfl⟩

/-- C1 (amended): invoking any of the seven trampolines while the singleton's
corresponding slot is absent panics through `Option::unwrap` on `None`; the
code performs no defensive log-and-return conversion (in the compiled
artifact, the panic aborts at the `extern "C"` boundary instead of unwinding
into host code, but no inert return happens either). -/
theorem C1_absent_slot_panics {α : Type} (st : PluginApi α) :
    (st.shutdown = none → shutdown st = .error .unwrapNone) ∧
    (st.run_callbacks = none → run_callbacks st = .error .unwrapNone) ∧
    (st.event_enter_main_menu = none →
      event_enter_main_menu st = .error .unwrapNone) ∧
    (∀ w h, st.event_enter_scenario_editor = none →
      event_enter_scenario_editor st w h = .error .unwrapNone) ∧
    (∀ w h, st.event_enter_singleplayer = none →
      event_enter_singleplayer st w h = .error .unwrapNone) ∧
    (∀ w h, st.event_enter_multiplayer = none →
      event_enter_multiplayer st w h = .error .unwrapNone) ∧
    (st.event_joining_multiplayer = none →
      event_joining_multiplayer st = .error .unwrapNone) :=
  ⟨fun h => by simp [shutdown, h],
   fun h => by simp [run_callbacks, h],
   fun h => by simp [event_enter_main_menu, h],
   fun w hh h => by simp [event_enter_scenario_editor, h],
   fun w hh h => by simp [event_enter_singleplayer, h],
   fun w hh h => by simp [event_enter_multiplayer, h],
   fun h => by simp [event_joining_multiplayer, h]⟩

/-- Witness for the amended C1 at the initial singleton state. -/
theorem C1_absent_slot_panics_witness :
    run_callbacks (PLUGIN_API Unit) = .error .unwrapNone ∧
      event_enter_singleplayer (PLUGIN_API Unit) 800 600 = .error .unwrapNone :=
  ⟨(C1_absent_slot_panics (PLUGIN_API Unit)).2.1 rfl,
   (C1_absent_slot_panics (PLUGIN_API Unit)).2.2.2.2.1 800 600 rfl⟩

/-- C7: a trampoline whose slot is present in the singleton calls the stored
callback with its arguments unchanged and returns the callback's result
unchanged. -/
theorem C7_present_slot_forwards {α : Type} (st : PluginApi α) :
    (∀ f, st.shutdown = some f → shutdown st = .ok (f ())) ∧
    (∀ f, st.run_callbacks = some f → run_callbacks st = .ok (f ())) ∧
    (∀ f, st.event_enter_main_menu = some f →
      event_enter_main_menu st = .ok (f ())) ∧
    (∀ f w h, st.event_enter_scenario_editor = some f →
      event_enter_scenario_editor st w h = .ok (f w h)) ∧
    (∀ f w h, st.event_enter_singleplayer = some f →
      event_enter_singleplayer st w h = .ok (f w h)) ∧
    (∀ f w h, st.event_enter_multiplayer = some f →
      event_enter_multiplayer st w h = .ok (f w h)) ∧
    (∀ f, st.event_joining_multiplayer = some f →
      event_joining_multiplayer st = .ok (f ())) :=
  ⟨fun f h => by simp [shutdown, h],
   fun f h => by simp [run_callbacks, h],
   fun f h => by simp [event_enter_main_menu, h],
   fun f w hh h => by simp [event_enter_scenario_editor, h],
   fun f w hh h => by simp [event_enter_singleplayer, h],
   fun f w hh h => by simp [event_enter_multiplayer, h],
   fun f h => by simp [event_joining_multiplayer, h]⟩

/-- Witness for C7: on a concrete table, `event_enter_singleplayer (800, 600)`
returns the stored callback's value at `(800, 600)`, and `run_callbacks`
forwards the stored callback's boolean. -/
theorem C7_present_slot_forwards_witness :
    event_enter_singleplayer apiSample 800 600 = .ok 1400 ∧
      run_callbacks apiSample = .ok true ∧ shutdown apiSample = .ok 3 :=
  ⟨(C7_present_slot_forwards apiSample).2.2.2.2.1 _ 800 600 rfl,
   (C7_present_slot_forwards apiSample).2.1 _ rfl,
   (C7_present_slot_forwards apiSample).1 _ rfl⟩

/-- C4: for a user init function returning PlatformNotRunning (`Ok(None)`) or
Failed (`Err(())`), the generated Init leaves the host's callback-table
memory unmodified, returns exactly the corresponding `InitResult` code, and
leaves the process-wide singleton unchanged (no partial table installed). -/
theorem C4_failure_paths_leave_state {α : Type}
    (init : OpenTTDInfo → Except Unit (Option (PluginApi α)))
    (mem : OpenTTD_SocialIntegration_v1_PluginApi α)
    (info : OpenTTD_SocialIntegration_v1_OpenTTDInfo) (st : PluginApi α) :
    (init (OpenTTDInfo.fromRaw info) = .ok none →
      SocialIntegration_v1_Init init mem info st =
        (mem, st, .INIT_PLATFORM_NOT_RUNNING)) ∧
    (init (OpenTTDInfo.fromRaw info) = .error () →
      SocialIntegration_v1_Init init mem info st = (mem, st, .INIT_FAILED)) := by
  constructor <;> intro h <;> simp [SocialIntegration_v1_Init, call_init, h]

/-- Witness for C4 with concrete init functions, table memory and host info. -/
theorem C4_failure_paths_leave_state_witness :
    SocialIntegration_v1_Init (fun _ => .ok none) (rawEmpty Nat) infoEmpty
        (PLUGIN_API Nat) =
      (rawEmpty Nat, PLUGIN_API Nat, .INIT_PLATFORM_NOT_RUNNING) ∧
    SocialIntegration_v1_Init (fun _ => .error ()) (rawEmpty Nat) infoEmpty
        (PLUGIN_API Nat) =
      (rawEmpty Nat, PLUGIN_API Nat, .INIT_FAILED) :=
  ⟨(C4_failure_paths_leave_state _ _ _ _).1 rfl,
   (C4_failure_paths_leave_state _ _ _ _).2 rfl⟩

/-- C6: `call_init` maps the user init function's result verbatim to the
returned `InitResult` code: `Ok(Some(table))` to SUCCESS, `Ok(None)` to
PLATFORM_NOT_RUNNING, `Err(())` to FAILED (and, being a function, exactly one
outcome is produced per call). -/
theorem C6_initresult_mapping {α : Type}
    (init : OpenTTDInfo → Except Unit (Option (PluginApi α)))
    (info : OpenTTD_SocialIntegration_v1_OpenTTDInfo) (st : PluginApi α) :
    (∀ api, init (OpenTTDInfo.fromRaw info) = .ok (some api) →
      (call_init init info st).2.2 = .INIT_SUCCESS) ∧
    (init (OpenTTDInfo.fromRaw info) = .ok none →
      (call_init init info st).2.2 = .INIT_PLATFORM_NOT_RUNNING) ∧
    (init (OpenTTDInfo.fromRaw info) = .error () →
      (call_init init info st).2.2 = .INIT_FAILED) := by
  refine ⟨fun api h => ?_, fun h => ?_, fun h => ?_⟩ <;> simp [call_init, h]

/-- Witness for C6 with the three concrete init functions. -/
theorem C6_initresult_mapping_witness :
    (call_init (fun _ => .ok (some apiSample)) infoEmpty (PLUGIN_API Nat)).2.2 =
        .INIT_SUCCESS ∧
    (call_init (fun _ => .ok none) infoEmpty (PLUGIN_API Nat)).2.2 =
        .INIT_PLATFORM_NOT_RUNNING ∧
    (call_init (fun _ => .error ()) infoEmpty (PLUGIN_API Nat)).2.2 = .INIT_FAILED :=
  ⟨(C6_initresult_mapping _ _ _).1 apiSample rfl,
   (C6_initresult_mapping _ _ _).2.1 rfl,
   (C6_initresult_mapping _ _ _).2.2 rfl⟩

/-- C5: for a user init function returning Success with a table whose present
slots form a subset S of the seven capability slots, the ABI callback table
produced by `call_init` is non-null exactly on the slots in S and null on all
others. -/
theorem C5_abi_table_armed_exactly {α : Type}
    (init : OpenTTDInfo → Except Unit (Option (PluginApi α)))
    (info : OpenTTD_SocialIntegration_v1_OpenTTDInfo) (st api : PluginApi α)
    (h : init (OpenTTDInfo.fromRaw info) = .ok (some api)) :
    ((call_init init info st).2.1).isSome = true ∧
    (∀ raw, (call_init init info st).2.1 = some raw →
      raw.shutdown.isSome = api.shutdown.isSome ∧
      raw.run_callbacks.isSome = api.run_callbacks.isSome ∧
      raw.event_enter_main_menu.isSome = api.event_enter_main_menu.isSome ∧
      raw.event_enter_scenario_editor.isSome = api.event_enter_scenario_editor.isSome ∧
      raw.event_enter_singleplayer.isSome = api.event_enter_singleplayer.isSome ∧
      raw.event_enter_multiplayer.isSome = api.event_enter_multiplayer.isSome ∧
      raw.event_joining_multiplayer.isSome = api.event_joining_multiplayer.isSome) := by
  obtain ⟨s1, s2, s3, s4, s5, s6, s7⟩ := api
  constructor
  · simp [call_init, h]
  · intro raw hr
    simp only [call_init, h] at hr
    injection hr with hr
    subst hr
    exact ⟨by cases s1 <;> rfl, by cases s2 <;> rfl, by cases s3 <;> rfl,
      by cases s4 <;> rfl, by cases s5 <;> rfl, by cases s6 <;> rfl,
      by cases s7 <;> rfl⟩

/-- Witness for C5: a concrete init function whose table arms a strict subset
of the slots produces a non-null ABI table. -/
theorem C5_abi_table_armed_exactly_witness :
    ((call_init (fun _ => .ok (some apiSample)) infoEmpty (PLUGIN_API Nat)).2.1).isSome =
      true :=
  (C5_abi_table_armed_exactly _ infoEmpty (PLUGIN_API Nat) apiSample rfl).1

example :
    ((call_init (fun _ => .ok (some apiSample)) infoEmpty (PLUGIN_API Nat)).2.1).map
        (fun r => (r.shutdown.isSome, r.run_callbacks.isSome,
          r.event_enter_main_menu.isSome, r.event_enter_scenario_editor.isSome,
          r.event_enter_singleplayer.isSome, r.event_enter_multiplayer.isSome,
          r.event_joining_multiplayer.isSome)) =
      some (true, true, false, false, true, false, true) := rfl

/-- After a sequence of successful inits, the singleton holds the last
table. -/
theorem runInits_append_last {α : Type}
    (info : OpenTTD_SocialIntegration_v1_OpenTTDInfo) (st0 : PluginApi α)
    (pre : List (PluginApi α)) (api : PluginApi α) :
    runInits info st0 (pre ++ [api]) = api := by
  unfold runInits
  rw [List.foldl_append]
  rfl

/-- C10: trampolines dispatch through the singleton at invocation time.
After any sequence of successful `call_init` invocations ending with table
`api`, the singleton equals `api` and invoking any trampoline calls the
callback stored by the LAST init; meanwhile the ABI table produced by any
successful `call_init` (in particular an earlier one) stores the fixed
trampoline functions themselves, so pointers already handed to the host
change behavior when a later init stores a new table. -/
theorem C10_dispatch_at_invocation_time {α : Type}
    (info : OpenTTD_SocialIntegration_v1_OpenTTDInfo) (st0 : PluginApi α)
    (pre : List (PluginApi α)) (api : PluginApi α) :
    runInits info st0 (pre ++ [api]) = api ∧
    (∀ f, api.shutdown = some f →
      shutdown (runInits info st0 (pre ++ [api])) = .ok (f ())) ∧
    (∀ f, api.run_callbacks = some f →
      run_callbacks (runInits info st0 (pre ++ [api])) = .ok (f ())) ∧
    (∀ f, api.event_enter_main_menu = some f →
      event_enter_main_menu (runInits info st0 (pre ++ [api])) = .ok (f ())) ∧
    (∀ f w h, api.event_enter_scenario_editor = some f →
      event_enter_scenario_editor (runInits info st0 (pre ++ [api])) w h = .ok (f w h)) ∧
    (∀ f w h, api.event_enter_singleplayer = some f →
      event_enter_singleplayer (runInits info st0 (pre ++ [api])) w h = .ok (f w h)) ∧
    (∀ f w h, api.event_enter_multiplayer = some f →
      event_enter_multiplayer (runInits info st0 (pre ++ [api])) w h = .ok (f w h)) ∧
    (∀ f, api.event_joining_multiplayer = some f →
      event_joining_multiplayer (runInits info st0 (pre ++ [api])) = .ok (f ())) ∧
    (∀ (t st : PluginApi α) (raw : OpenTTD_SocialIntegration_v1_PluginApi α),
      (call_init (fun _ => .ok (some t)) info st).2.1 = some raw →
      raw.shutdown = (if t.shutdown.isSome then some shutdown else none) ∧
      raw.run_callbacks = (if t.run_callbacks.isSome then some run_callbacks else none) ∧
      raw.event_enter_main_menu =
        (if t.event_enter_main_menu.isSome then some event_enter_main_menu else none) ∧
      raw.event_enter_scenario_editor =
        (if t.event_enter_scenario_editor.isSome then some event_enter_scenario_editor
          else none) ∧
      raw.event_enter_singleplayer =
        (if t.event_enter_singleplayer.isSome then some event_enter_singleplayer
          else none) ∧
      raw.event_enter_multiplayer =
        (if t.event_enter_multiplayer.isSome then some event_enter_multiplayer
          else none) ∧
      raw.event_joining_multiplayer =
        (if t.event_joining_multiplayer.isSome then some event_joining_multiplayer
          else none)) := by
  refine ⟨runInits_append_last info st0 pre api,
    fun f hf => ?_, fun f hf => ?_, fun f hf => ?_,
    fun f w h hf => ?_, fun f w h hf => ?_, fun f w h hf => ?_, fun f hf => ?_,
    fun t st raw hr => ?_⟩
  · rw [runInits_append_last]; simp [shutdown, hf]
  · rw [runInits_append_last]; simp [run_callbacks, hf]
  · rw [runInits_append_last]; simp [event_enter_main_menu, hf]
  · rw [runInits_append_last]; simp [event_enter_scenario_editor, hf]
  · rw [runInits_append_last]; simp [event_enter_singleplayer, hf]
  · rw [runInits_append_last]; simp [event_enter_multiplayer, hf]
  · rw [runInits_append_last]; simp [event_joining_multiplayer, hf]
  · obtain ⟨t1, t2, t3, t4, t5, t6, t7⟩ := t
    simp only [call_init] at hr
    injection hr with hr
    subst hr
    exact ⟨by cases t1 <;> rfl, by cases t2 <;> rfl, by cases t3 <;> rfl,
      by cases t4 <;> rfl, by cases t5 <;> rfl, by cases t6 <;> rfl,
      by cases t7 <;> rfl⟩

/-- Witness for C10: after two successful inits the already-handed trampoline
pointers use the second table's callbacks. -/
theorem C10_dispatch_at_invocation_time_witness :
    run_callbacks (runInits infoEmpty (PLUGIN_API Nat) ([apiSample] ++ [apiSample2])) =
        .ok false ∧
    event_enter_singleplayer
        (runInits infoEmpty (PLUGIN_API Nat) ([apiSample] ++ [apiSample2])) 800 600 =
      .ok 480000 :=
  ⟨(C10_dispatch_at_invocation_time infoEmpty (PLUGIN_API Nat) [apiSample]
      apiSample2).2.2.1 _ rfl,
   (C10_dispatch_at_invocation_time infoEmpty (PLUGIN_API Nat) [apiSample]
      apiSample2).2.2.2.2.2.1 _ 800 600 rfl⟩

/-- C2 (the code at the failing input): for the metadata triple
("test", "Test Plugin", "0.1"), the generated GetInfo writes pointers to the
bytes of the stringified literal tokens — including the surrounding
double-quote characters — not the three attribute values themselves, because
`stringify!(#lit)` prints the string literal token with its quotes.  (The
write itself is an unconditional pure record assignment, hence idempotent
and failure-free.) -/
theorem C2_getinfo_writes_quoted_strings :
    (SocialIntegration_v1_GetInfo "test" "Test Plugin" "0.1").social_platform =
        encodeStr "\"test\"" ∧
    (SocialIntegration_v1_GetInfo "test" "Test Plugin" "0.1").name =
        encodeStr "\"Test Plugin\"" ∧
    (SocialIntegration_v1_GetInfo "test" "Test Plugin" "0.1").version =
        encodeStr "\"0.1\"" ∧
    ((SocialIntegration_v1_GetInfo "test" "Test Plugin" "0.1").social_platform).length =
        6 ∧
    (encodeStr "test").length = 4 := by
  exact ⟨rfl, rfl, rfl, by decide, by decide⟩

/-- C3 (the code at the failing input): none of the three pointers written by
the generated GetInfo points at a NUL-terminated byte sequence: the static
bytes behind each pointer (the stringified literal seen through
`str::as_ptr`, which exposes exactly the string's own bytes) contain no NUL
byte at all. -/
theorem C3_getinfo_not_nul_terminated :
    ((SocialIntegration_v1_GetInfo "test" "Test Plugin" "0.1").social_platform).contains
        0 = false ∧
    ((SocialIntegration_v1_GetInfo "test" "Test Plugin" "0.1").name).contains 0 =
        false ∧
    ((SocialIntegration_v1_GetInfo "test" "Test Plugin" "0.1").version).contains 0 =
        false := by
  refine ⟨?_, ?_, ?_⟩ <;> decide

/-- C9 (counterexample): with `platform` supplied as the EMPTY string (name
and version supplied), the macro still generates the exported symbols — the
code checks only presence of the three attributes, never non-emptiness —
refuting the claim that symbols are generated only when all three are
supplied as non-empty strings. -/
theorem C9_counterexample :
    Macros.init { social_platform := some "", name := some "x", version := some "y" } =
      .ok (SocialIntegration_v1_GetInfo "" "x" "y") := rfl

/-- C9 (amended): the macro generates the two exported symbols exactly when
all three attributes are supplied (empty strings are accepted); if any one of
the three is missing, generation fails with the compile-time diagnostic
"No platform, name or version args!", for each of the three omission cases
individually. -/
theorem C9_presence_validation (attrs : Attributes) :
    (attrs.social_platform = none ∨ attrs.name = none ∨ attrs.version = none →
      Macros.init attrs = .compileError "No platform, name or version args!") ∧
    (attrs.social_platform.isSome ∧ attrs.name.isSome ∧ attrs.version.isSome →
      ∃ rec, Macros.init attrs = .ok rec) := by
  obtain ⟨p, n, v⟩ := attrs
  cases p <;> cases n <;> cases v <;>
    simp [Macros.init, impl_init]

/-- Witness for the amended C9: each of the three omission cases individually
yields the compile-time diagnostic. -/
theorem C9_presence_validation_witness :
    Macros.init { social_platform := none, name := some "x", version := some "y" } =
        .compileError "No platform, name or version args!" ∧
    Macros.init { social_platform := some "p", name := none, version := some "y" } =
        .compileError "No platform, name or version args!" ∧
    Macros.init { social_platform := some "p", name := some "x", version := none } =
        .compileError "No platform, name or version args!" :=
  ⟨(C9_presence_validation _).1 (Or.inl rfl),
   (C9_presence_validation _).1 (Or.inr (Or.inl rfl)),
   (C9_presence_validation _).1 (Or.inr (Or.inr rfl))⟩
